import Mathlib

/-!
# Caxios — shallow embedding

A Lean 4 embedding of the caxios library (a thin convenience layer over
the axios HTTP client).  The repository holds two revisions of the code:

* the current revision (in `src/unnamed/part_000`), which creates an
  isolated client via `axios.create()` and classifies rejections with the
  four predicate methods `isFormat` / `isCancel` / `isNetwork` /
  `isValidation`; and
* an older revision (`src/index.js`), which works on the global axios
  instance and marks errors with `cancelled` / `invalid` fields.

The definitions below follow the current revision; the older revision's
initialization routine `setGlobalDefaults` is embedded separately where the
divergence between the two matters.

JavaScript objects are modelled as association lists with *last-wins*
lookup, so that `Object.assign(target, source)` is list append: a lookup
finds the value of the most recently assigned occurrence of a key, exactly
as property assignment overwrites in JS.  JSON parsing is an external
runtime capability (the spec lists it as a non-goal), so the fulfilled
interceptor is parametric in a `jsonParse` function returning either
success or a SyntaxError message.
-/

namespace Caxios

/-- Fields of a JS object holding string values: an association list with
last-wins lookup (`getField`). -/
abbrev Fields := List (String × String)

/-- JS property lookup: the value of the key's latest assignment, `none`
standing for `undefined`. -/
def getField (o : Fields) (k : String) : Option String :=
  (o.reverse.find? (fun p => p.1 == k)).map (fun p => p.2)

/-- `Object.assign(target, source)` restricted to string-valued objects:
the source's fields overwrite the target's, which under last-wins lookup
is list append. -/
def objAssign (target source : Fields) : Fields :=
  target ++ source

/-- An opaque cancellation token handle (`cancelSource.token`). -/
abbrev Token := Nat

/-- A cancellation source: `axios.CancelToken.source()` yields an object
with a `token` (and a `cancel()` capability, irrelevant to the config
plumbing embedded here).  The `token` field may be absent (`undefined`). -/
structure CancelSource where
  token : Option Token := none
deriving DecidableEq, Repr

/-- A request config object.  `headers` is `none` when the JS object has no
`headers` property (`undefined`); likewise for `cancelToken` and
`cancelSource`.  `extra` stands for the transport passthrough fields copied
verbatim by `Object.assign`. -/
structure Config where
  headers : Option Fields := none
  cancelToken : Option Token := none
  cancelSource : Option CancelSource := none
  extra : Fields := []
deriving DecidableEq, Repr

/-- The body payload of a response, as axios delivers it: either the raw
body string (axios failed or declined to JSON-parse it) or a structured
value — `typeof data === 'object'` — whose contents caxios never inspects,
kept as an opaque tag. -/
inductive JsData where
  | str (s : String)
  | obj (v : String)
deriving DecidableEq, Repr

/-- `typeof response.data === 'object'`. -/
def JsData.typeofObject : JsData → Bool
  | .str _ => false
  | .obj _ => true

/-- An axios response: status, status text, headers, the effective config
and the data payload.  (The raw `request` handle carries no information the
interceptors read and is omitted.) -/
structure Response where
  status : Nat
  statusText : String
  headers : Fields
  config : Config
  data : JsData
deriving DecidableEq, Repr

/-- A failure object as handed to the rejected-response interceptor, before
classification.  `isSyntaxError` embeds the JS `ex instanceof SyntaxError`
test; `cancelled` embeds the transport's own predicate `axios.isCancel(ex)`;
`response` is absent when the transport never received a server reply. -/
structure AxiosError where
  isSyntaxError : Bool
  cancelled : Bool
  response : Option Response
  message : String
  config : Option Config := none
deriving DecidableEq, Repr

/-- A failure object after the rejected-response interceptor extended it
with the four zero-argument classification methods.  Each method returns a
boolean constant for this instance, recorded here as the boolean itself. -/
structure ClassifiedError where
  err : AxiosError
  isFormat : Bool
  isCancel : Bool
  isNetwork : Bool
  isValidation : Bool
deriving DecidableEq, Repr

/-- What a JS interceptor can throw: a `TypeError` raised by reading a
property of `undefined`, or the classified failure (re)thrown by
`rejectedResponseInterceptor`. -/
inductive Thrown where
  | typeError
  | classified (e : ClassifiedError)
deriving DecidableEq, Repr

/-- `rejectedResponseInterceptor` of the current revision
(src/unnamed/part_000 lines 303–316): start from all four predicates
false, then the first matching branch of the
SyntaxError / isCancel / no-response / status-422 chain overrides its
predicate; the extended object is thrown (here: returned as the thrown
value). -/
def rejectedResponseInterceptor (ex : AxiosError) : ClassifiedError :=
  if ex.isSyntaxError then
    { err := ex, isFormat := true, isCancel := false, isNetwork := false, isValidation := false }
  else if ex.cancelled then
    { err := ex, isFormat := false, isCancel := true, isNetwork := false, isValidation := false }
  else
    match ex.response with
    | none =>
      { err := ex, isFormat := false, isCancel := false, isNetwork := true, isValidation := false }
    | some r =>
      if r.status = 422 then
        { err := ex, isFormat := false, isCancel := false, isNetwork := false, isValidation := true }
      else
        { err := ex, isFormat := false, isCancel := false, isNetwork := false, isValidation := false }

/-- JS `String.prototype.indexOf` over the character list: index of the
first occurrence of `pat`, or `-1`. -/
def findSubAux : List Char → List Char → Option Nat
  | l, pat =>
    if pat.isPrefixOf l then some 0
    else
      match l with
      | [] => none
      | _ :: tl => (findSubAux tl pat).map (· + 1)

/-- `s.indexOf(pat)` returning an integer, `-1` when absent. -/
def jsIndexOf (s pat : String) : Int :=
  match findSubAux s.data pat.data with
  | some n => (n : Int)
  | none => -1

/-- `fulfilledResponseInterceptor` of the current revision
(src/unnamed/part_000 lines 269–295), parametric in the runtime's
`JSON.parse` (success, or failure with the SyntaxError's message).
Reading `response.config.headers['Accept']` when `headers` is `undefined`,
or calling `.indexOf` on an `undefined` Accept value, raises a JS
`TypeError`.  When JSON was expected exclusively and the body string fails
to parse, the SyntaxError gets `response` and `config` attached and is
routed through `rejectedResponseInterceptor`, whose throw propagates. -/
def fulfilledResponseInterceptor (jsonParse : String → Except String Unit)
    (response : Response) : Except Thrown Response :=
  match response.config.headers with
  | none => .error .typeError
  | some hs =>
    match getField hs "Accept" with
    | none => .error .typeError
    | some accept =>
      let theResponseIsFine :=
        decide (jsIndexOf accept "application/json" < 0)
        || decide (jsIndexOf accept "," > 0)
        || response.data.typeofObject
      if theResponseIsFine then .ok response
      else
        match response.data with
        | .obj _ => .ok response
        | .str s =>
          match jsonParse s with
          | .ok _ => .ok response
          | .error m =>
            .error (.classified (rejectedResponseInterceptor
              { isSyntaxError := true
                cancelled := false
                response := some response
                message := m
                config := some response.config }))

/-- `withAcceptJSON(baseConfig)` (src/unnamed/part_000 lines 326–329):
`Object.assign({}, { Accept: 'application/json' }, baseConfig.headers)`
builds the headers (an absent `baseConfig.headers` contributes nothing),
and the result is `Object.assign({}, baseConfig, { headers })`. -/
def withAcceptJSON (baseConfig : Config) : Config :=
  let defaultHeaders :=
    objAssign (objAssign [] [("Accept", "application/json")]) (baseConfig.headers.getD [])
  { baseConfig with headers := some defaultHeaders }

/-- `withCancelToken(baseConfig)` (src/unnamed/part_000 lines 347–350):
`baseConfig.cancelToken || (baseConfig.cancelSource || {}).token`, then
`Object.assign({}, baseConfig, { cancelToken })`. -/
def withCancelToken (baseConfig : Config) : Config :=
  let cancelToken :=
    baseConfig.cancelToken.orElse (fun _ => ((baseConfig.cancelSource.getD {}).token))
  { baseConfig with cancelToken := cancelToken }

/-- The exported `withAcceptJSON` seen from JS, where the argument may be
`undefined`: the default parameter `baseConfig = {}` substitutes a fresh
empty object. -/
def withAcceptJSONJS (baseConfig : Option Config) : Except Thrown Config :=
  .ok (withAcceptJSON (baseConfig.getD {}))

/-- The exported `withCancelToken` seen from JS: it has no default
parameter, so an `undefined` argument makes `baseConfig.cancelToken` raise
a `TypeError`. -/
def withCancelTokenJS (baseConfig : Option Config) : Except Thrown Config :=
  match baseConfig with
  | none => .error .typeError
  | some c => .ok (withCancelToken c)

/-- The config composition performed by the verb facades, e.g.
`get = (url, config = {}) => caxios.get(url, withCancelToken(config))`
(src/unnamed/part_000 line 358): the default parameter shields
`withCancelToken` from an `undefined` argument. -/
def facadeRequestConfig (config : Option Config) : Except Thrown Config :=
  withCancelTokenJS (some (config.getD {}))

instance {ε α : Type} [DecidableEq ε] [DecidableEq α] : DecidableEq (Except ε α) := fun a b =>
  match a, b with
  | .error e, .error f =>
    if h : e = f then .isTrue (by rw [h]) else .isFalse (by simp [h])
  | .ok x, .ok y =>
    if h : x = y then .isTrue (by rw [h]) else .isFalse (by simp [h])
  | .error _, .ok _ => .isFalse (by simp)
  | .ok _, .error _ => .isFalse (by simp)

/-! ## The spec's classification table

A second, spec-side definition of the classification, used to compare the
interceptor against the spec's "first match wins" priority list. -/

/-- The five classification outcomes named by the spec. -/
inductive ErrClass where
  | format
  | cancel
  | network
  | validation
  | other
deriving DecidableEq, Repr

/-- Modelled from the spec: whether one rule of the classification table
matches a failure — format when the failure is a parsing-error type,
cancel when the transport's cancellation predicate recognises it, network
when no response is attached, validation when an attached response has
status 422, and the unclassified case matching everything. -/
def ruleMatches (ex : AxiosError) : ErrClass → Bool
  | .format => ex.isSyntaxError
  | .cancel => ex.cancelled
  | .network => ex.response.isNone
  | .validation =>
    match ex.response with
    | some r => decide (r.status = 422)
    | none => false
  | .other => true

/-- Modelled from the spec: the fixed priority order of the rules. -/
def priorityOrder : List ErrClass :=
  [.format, .cancel, .network, .validation, .other]

/-- Modelled from the spec: the classification assigned is the first rule
in the priority order that matches. -/
def classifySpec (ex : AxiosError) : ErrClass :=
  (priorityOrder.find? (ruleMatches ex)).getD .other

/-- The predicate quadruple `(isFormat, isCancel, isNetwork, isValidation)`
a classification outcome corresponds to; the unclassified case leaves all
four false. -/
def ErrClass.indicator : ErrClass → Bool × Bool × Bool × Bool
  | .format => (true, false, false, false)
  | .cancel => (false, true, false, false)
  | .network => (false, false, true, false)
  | .validation => (false, false, false, true)
  | .other => (false, false, false, false)

/-! ## Heap-level embedding of the config composers

The frame property "composer functions never mutate the caller-supplied
config" is about object identity, so the two composers are re-embedded
over an explicit store of JS objects.  A store is a list of objects; a
reference is an index; `Object.assign({}, …)` allocates at the end of the
store and never writes an existing object. -/

/-- A JS value stored in an object field: a string, a reference to another
object, an opaque cancellation token, or `undefined`. -/
inductive HVal where
  | vstr (s : String)
  | vref (r : Nat)
  | vtok (t : Nat)
  | vundefined
deriving DecidableEq, Repr

/-- A JS object: its fields, with last-wins lookup as for `Fields`. -/
structure HObj where
  fields : List (String × HVal)
deriving DecidableEq, Repr

/-- A store of allocated objects; `vref r` denotes `σ[r]`. -/
abbrev Store := List HObj

/-- Lookup in a field list; an absent key reads as `undefined`. -/
def hGetFields (fs : List (String × HVal)) (k : String) : HVal :=
  (((fs.reverse.find? (fun p => p.1 == k))).map (fun p => p.2)).getD .vundefined

/-- Property read `o.k`. -/
def hGetField (o : HObj) (k : String) : HVal :=
  hGetFields o.fields k

/-- The object a store holds at reference `r` (total for convenience; the
theorems only dereference allocated references). -/
def storeObj (σ : Store) (r : Nat) : HObj :=
  (σ[r]?).getD ⟨[]⟩

/-- The fields `Object.assign` copies out of a source value: the fields of
a referenced object; `undefined` (which `Object.assign` skips) and opaque
primitives contribute none. -/
def sourceFields (σ : Store) : HVal → List (String × HVal)
  | .vref r => (storeObj σ r).fields
  | _ => []

/-- JS truthiness test used by `||`: `undefined` and the empty string are
falsy; references and token handles are truthy. -/
def jsFalsy : HVal → Bool
  | .vundefined => true
  | .vstr s => s == ""
  | _ => false

/-- Heap-level `withAcceptJSON(baseConfig)` called with an object argument
`vref r` (src/unnamed/part_000 lines 326–329): build the headers fields
from the `{ Accept: 'application/json' }` literal overwritten by
`baseConfig.headers`, allocate the new headers object, then allocate the
result object `Object.assign({}, baseConfig, { headers })`.  Returns the
grown store and the reference to the result. -/
def withAcceptJSONH (σ : Store) (r : Nat) : Store × HVal :=
  let baseObj := storeObj σ r
  let defaultHeaders :=
    ([] ++ [("Accept", HVal.vstr "application/json")])
      ++ sourceFields σ (hGetField baseObj "headers")
  let σ1 := σ ++ [⟨defaultHeaders⟩]
  let hdrRef := σ.length
  let resFields := ([] ++ baseObj.fields) ++ [("headers", HVal.vref hdrRef)]
  (σ1 ++ [⟨resFields⟩], .vref (σ.length + 1))

/-- Heap-level `withCancelToken(baseConfig)` called with an object argument
`vref r` (src/unnamed/part_000 lines 347–350):
`baseConfig.cancelToken || (baseConfig.cancelSource || {}).token` picks the
token value, then `Object.assign({}, baseConfig, { cancelToken })`
allocates the result.  Returns the grown store and the result reference. -/
def withCancelTokenH (σ : Store) (r : Nat) : Store × HVal :=
  let baseObj := storeObj σ r
  let ct := hGetField baseObj "cancelToken"
  let cancelToken :=
    if jsFalsy ct then
      hGetFields (sourceFields σ (hGetField baseObj "cancelSource")) "token"
    else ct
  let resFields := ([] ++ baseObj.fields) ++ [("cancelToken", cancelToken)]
  (σ ++ [⟨resFields⟩], .vref σ.length)

/-! ## Initialization

The current revision creates an isolated instance (`caxios =
axios.create()`) and installs its defaults there; the older revision
(src/index.js) installs the same defaults on the global axios instance. -/

/-- A registered response-interceptor pair.  Initialization registers
exactly one: the `(fulfilledResponseInterceptor,
rejectedResponseInterceptor)` pair. -/
inductive ResponseHookPair where
  | normalizePair
deriving DecidableEq, Repr

/-- The observable defaults of one axios instance: timeout, the per-method
default headers and the registered response interceptors. -/
structure AxiosInstance where
  timeout : Nat
  methodHeaders : List (String × Fields)
  responseInterceptors : List ResponseHookPair
deriving DecidableEq, Repr

/-- A fresh axios instance, as `require('axios')` or `axios.create()`
provides it: timeout 0 and form-urlencoded payloads for post/put/patch. -/
def axiosFreshInstance : AxiosInstance :=
  { timeout := 0
    methodHeaders :=
      [("common", [("Accept", "application/json, text/plain, */*")]),
       ("post", [("Content-Type", "application/x-www-form-urlencoded")]),
       ("put", [("Content-Type", "application/x-www-form-urlencoded")]),
       ("patch", [("Content-Type", "application/x-www-form-urlencoded")])]
    responseInterceptors := [] }

/-- The two client instances visible to a caxios consumer: the underlying
library's global shared default instance, and the instance caxios created
for itself via `axios.create()`. -/
structure HttpClientState where
  globalAxios : AxiosInstance
  caxios : AxiosInstance
deriving DecidableEq, Repr

/-- State at module load, before any initialization ran. -/
def initialHttpState : HttpClientState :=
  { globalAxios := axiosFreshInstance, caxios := axiosFreshInstance }

/-- `defaults.headers[m]['Content-Type'] = 'application/json'` for one
method `m`. -/
def setContentTypeJSON (mh : List (String × Fields)) (m : String) :
    List (String × Fields) :=
  mh.map (fun p => if p.1 == m then (p.1, objAssign p.2 [("Content-Type", "application/json")]) else p)

/-- The body shared by both initialization routines: set the timeout to
`1000 * 3`, set the JSON content type for post/put/patch, and register the
response-interceptor pair on the given instance. -/
def installDefaults (inst : AxiosInstance) : AxiosInstance :=
  { timeout := 1000 * 3
    methodHeaders := ["post", "put", "patch"].foldl setContentTypeJSON inst.methodHeaders
    responseInterceptors := inst.responseInterceptors ++ [.normalizePair] }

/-- `setCaxiosDefaults` (src/unnamed/part_000 lines 447–458): installs the
defaults on the isolated `caxios` instance. -/
def setCaxiosDefaults (s : HttpClientState) : HttpClientState :=
  { s with caxios := installDefaults s.caxios }

/-- `setGlobalDefaults` (src/index.js lines 195–206, the older revision):
installs the same defaults on the library's global shared instance. -/
def setGlobalDefaults (s : HttpClientState) : HttpClientState :=
  { s with globalAxios := installDefaults s.globalAxios }

/-- Content-Type default of one method after initialization. -/
def methodContentType (inst : AxiosInstance) (m : String) : Option String :=
  getField (((inst.methodHeaders.find? (fun p => p.1 == m)).getD ("", [])).2) "Content-Type"

/-! ## Helper lemmas -/

/-- Last-wins lookup over `Object.assign`: the source's binding wins,
falling back to the target's. -/
theorem getField_append (t s : Fields) (k : String) :
    getField (t ++ s) k = ((getField s k).or (getField t k)) := by
  unfold getField
  rw [List.reverse_append, List.find?_append]
  cases h : s.reverse.find? (fun p => p.1 == k) <;> simp [Option.or]

/-! ## Claim C1 -/

/-- C1, counterexample: a caller-supplied `Accept` header is *not*
overridden to `application/json` — `baseConfig.headers` is the last
`Object.assign` source, so the caller's own Accept value wins. -/
theorem withAcceptJSON_callerAccept_wins :
    getField ((withAcceptJSON { headers := some [("Accept", "text/html")] }).headers.getD []) "Accept"
        = some "text/html"
    ∧ getField ((withAcceptJSON { headers := some [("Accept", "text/html")] }).headers.getD []) "Accept"
        ≠ some "application/json" := by
  decide

/-- C1, amended: `withAcceptJSON(baseConfig)` returns a new config that
preserves every caller-supplied header (a caller-supplied `Accept`
included), sets `headers.Accept` to `application/json` only when the
caller supplied no Accept header of their own (JSON is the default, the
caller's headers win), and copies every other config field unchanged. -/
theorem withAcceptJSON_amended (base : Config) :
    (∀ k v, getField (base.headers.getD []) k = some v →
        getField ((withAcceptJSON base).headers.getD []) k = some v)
    ∧ (getField (base.headers.getD []) "Accept" = none →
        getField ((withAcceptJSON base).headers.getD []) "Accept" = some "application/json")
    ∧ (withAcceptJSON base).cancelToken = base.cancelToken
    ∧ (withAcceptJSON base).cancelSource = base.cancelSource
    ∧ (withAcceptJSON base).extra = base.extra := by
  refine ⟨?_, ?_, rfl, rfl, rfl⟩
  · intro k v hv
    show getField (objAssign (objAssign [] [("Accept", "application/json")]) (base.headers.getD [])) k
        = some v
    rw [objAssign, objAssign, getField_append, hv]
    rfl
  · intro hnone
    show getField (objAssign (objAssign [] [("Accept", "application/json")]) (base.headers.getD []))
        "Accept" = some "application/json"
    rw [objAssign, objAssign, getField_append, hnone]
    decide

/-- Witness for the amended C1 at a concrete config carrying one custom
header and no Accept. -/
theorem withAcceptJSON_amended_witness :
    getField ((withAcceptJSON { headers := some [("X-Auth", "tok")] }).headers.getD []) "X-Auth"
        = some "tok"
    ∧ getField ((withAcceptJSON { headers := some [("X-Auth", "tok")] }).headers.getD []) "Accept"
        = some "application/json" :=
  ⟨(withAcceptJSON_amended { headers := some [("X-Auth", "tok")] }).1 "X-Auth" "tok" (by decide),
   (withAcceptJSON_amended { headers := some [("X-Auth", "tok")] }).2.1 (by decide)⟩

/-! ## Claim C2 -/

/-- An ordinary HTTP failure the classifier leaves unclassified: a
response is attached with status 500, the failure is not a SyntaxError and
not a cancellation. -/
def otherHttpError : AxiosError :=
  { isSyntaxError := false
    cancelled := false
    response := some { status := 500, statusText := "Internal Server Error",
                       headers := [], config := {}, data := .str "oops" }
    message := "Request failed with status code 500" }

/-- C2, counterexample: on a plain 500 failure the rejected-response hook
leaves all four predicates false, so "exactly one predicate is true —
never zero" does not hold. -/
theorem rejected_counter_all_false :
    (rejectedResponseInterceptor otherHttpError).isFormat = false
    ∧ (rejectedResponseInterceptor otherHttpError).isCancel = false
    ∧ (rejectedResponseInterceptor otherHttpError).isNetwork = false
    ∧ (rejectedResponseInterceptor otherHttpError).isValidation = false := by
  decide

/-- C2, amended: at most one of the four predicates is true per classified
rejection — never more than one — and all four are false exactly in the
unclassified case: not a parsing error, not a cancellation, and a response
attached whose status is not 422. -/
theorem rejected_at_most_one (ex : AxiosError) :
    ((rejectedResponseInterceptor ex).isFormat.toNat
      + (rejectedResponseInterceptor ex).isCancel.toNat
      + (rejectedResponseInterceptor ex).isNetwork.toNat
      + (rejectedResponseInterceptor ex).isValidation.toNat ≤ 1)
    ∧ (((rejectedResponseInterceptor ex).isFormat = false
        ∧ (rejectedResponseInterceptor ex).isCancel = false
        ∧ (rejectedResponseInterceptor ex).isNetwork = false
        ∧ (rejectedResponseInterceptor ex).isValidation = false)
       ↔ (ex.isSyntaxError = false ∧ ex.cancelled = false
          ∧ ∃ r, ex.response = some r ∧ r.status ≠ 422)) := by
  rcases ex with ⟨se, ca, resp, msg, cfg⟩
  cases se
  · cases ca
    · rcases resp with _ | r
      · simp [rejectedResponseInterceptor]
      · by_cases h : r.status = 422 <;> simp [rejectedResponseInterceptor, h]
    · simp [rejectedResponseInterceptor]
  · simp [rejectedResponseInterceptor]

/-- Witness for the amended C2 at the concrete unclassified failure. -/
theorem rejected_at_most_one_witness :
    (rejectedResponseInterceptor otherHttpError).isFormat.toNat
      + (rejectedResponseInterceptor otherHttpError).isCancel.toNat
      + (rejectedResponseInterceptor otherHttpError).isNetwork.toNat
      + (rejectedResponseInterceptor otherHttpError).isValidation.toNat ≤ 1 :=
  (rejected_at_most_one otherHttpError).1

/-! ## Claim C3 -/

/-- C3, confirmed: the predicate quadruple assigned by the rejected
response hook is exactly the indicator of the first matching rule in the
spec's fixed priority order (format, cancelled, network, validation,
unclassified), and the classified object is the input failure itself. -/
theorem rejected_matches_priority_spec (ex : AxiosError) :
    ((rejectedResponseInterceptor ex).isFormat,
     (rejectedResponseInterceptor ex).isCancel,
     (rejectedResponseInterceptor ex).isNetwork,
     (rejectedResponseInterceptor ex).isValidation) = (classifySpec ex).indicator
    ∧ (rejectedResponseInterceptor ex).err = ex := by
  rcases ex with ⟨se, ca, resp, msg, cfg⟩
  cases se
  · cases ca
    · rcases resp with _ | r
      · simp [rejectedResponseInterceptor, classifySpec, priorityOrder, ruleMatches,
              List.find?, ErrClass.indicator]
      · by_cases h : r.status = 422 <;>
          simp [rejectedResponseInterceptor, classifySpec, priorityOrder, ruleMatches,
                List.find?, ErrClass.indicator, h]
    · simp [rejectedResponseInterceptor, classifySpec, priorityOrder, ruleMatches,
            List.find?, ErrClass.indicator]
  · simp [rejectedResponseInterceptor, classifySpec, priorityOrder, ruleMatches,
          List.find?, ErrClass.indicator]

/-! ## Claim C4 -/

/-- A stand-in for the runtime JSON parser, used to evaluate the
interceptor on concrete inputs: it accepts exactly the string `{}`. -/
def jsonParseStub : String → Except String Unit := fun s =>
  if s = "{}" then .ok () else .error "Unexpected token < in JSON at position 0"

/-- A 2xx response whose effective config carries no Accept header. -/
def respMissingAccept : Response :=
  { status := 200, statusText := "OK", headers := [("content-type", "text/html")]
    config := { headers := some [("Content-Type", "text/html")] }
    data := .str "<html></html>" }

/-- C4, counterexample: on a successful response whose config has no
Accept header, the fulfilled-response hook does not pass the response
through: reading `.indexOf` of the undefined Accept value raises a
TypeError. -/
theorem fulfilled_counter_missing_accept :
    fulfilledResponseInterceptor jsonParseStub respMissingAccept = .error .typeError
    ∧ fulfilledResponseInterceptor jsonParseStub respMissingAccept ≠ .ok respMissingAccept := by
  decide

/-- C4, amended: when the Accept header is present and either does not
mention `application/json` or lists several accepted types (a comma at a
positive index), the fulfilled-response hook returns the response
unchanged and raises nothing; but when the Accept header is absent the
hook fails with a TypeError instead of passing the response through. -/
theorem fulfilled_passthrough_nonjson (jp : String → Except String Unit) (resp : Response)
    (hs : Fields) (hh : resp.config.headers = some hs) :
    (∀ a, getField hs "Accept" = some a →
        jsIndexOf a "application/json" < 0 ∨ jsIndexOf a "," > 0 →
        fulfilledResponseInterceptor jp resp = .ok resp)
    ∧ (getField hs "Accept" = none →
        fulfilledResponseInterceptor jp resp = .error .typeError) := by
  constructor
  · intro a ha hcond
    have hfine : (decide (jsIndexOf a "application/json" < 0)
        || decide (jsIndexOf a "," > 0) || resp.data.typeofObject) = true := by
      rcases hcond with h | h <;> simp [h]
    simp [fulfilledResponseInterceptor, hh, ha, hfine]
  · intro ha
    simp [fulfilledResponseInterceptor, hh, ha]

/-- A 2xx response whose caller accepted only `text/html`. -/
def respHtmlAccept : Response :=
  { status := 200, statusText := "OK", headers := []
    config := { headers := some [("Accept", "text/html")] }
    data := .str "<html></html>" }

/-- Witness for the amended C4: a text/html request passes through, a
request without Accept raises the TypeError. -/
theorem fulfilled_passthrough_nonjson_witness :
    fulfilledResponseInterceptor jsonParseStub respHtmlAccept = .ok respHtmlAccept
    ∧ fulfilledResponseInterceptor jsonParseStub respMissingAccept = .error .typeError :=
  ⟨(fulfilled_passthrough_nonjson jsonParseStub respHtmlAccept [("Accept", "text/html")] rfl).1
      "text/html" (by decide) (Or.inl (by decide)),
   (fulfilled_passthrough_nonjson jsonParseStub respMissingAccept
      [("Content-Type", "text/html")] rfl).2 (by decide)⟩

/-! ## Claim C5 -/

/-- C5, confirmed: on a successful response that requested
`application/json` exclusively and whose body is a string the JSON parser
rejects, the fulfilled-response hook rejects — it never returns through
the success path: the parse SyntaxError gets the response attached, is
routed through the classifier, and comes out with `isFormat` true and the
other three predicates false. -/
theorem fulfilled_invalid_json_isFormat (jp : String → Except String Unit) (resp : Response)
    (hs : Fields) (s m : String)
    (hh : resp.config.headers = some hs)
    (ha : getField hs "Accept" = some "application/json")
    (hd : resp.data = .str s)
    (hp : jp s = .error m) :
    ∃ c : ClassifiedError,
      fulfilledResponseInterceptor jp resp = .error (.classified c)
      ∧ c.isFormat = true ∧ c.isCancel = false ∧ c.isNetwork = false ∧ c.isValidation = false
      ∧ c.err.message = m ∧ c.err.response = some resp := by
  refine ⟨rejectedResponseInterceptor
    { isSyntaxError := true, cancelled := false, response := some resp, message := m,
      config := some resp.config }, ?_, rfl, rfl, rfl, rfl, rfl, rfl⟩
  have hfine : (decide (jsIndexOf "application/json" "application/json" < 0)
      || decide (jsIndexOf "application/json" "," > 0)
      || JsData.typeofObject (.str s)) = false := by
    simp only [JsData.typeofObject, Bool.or_false]
    decide
  simp [fulfilledResponseInterceptor, hh, ha, hd, hp, hfine]

/-- A 2xx response carrying a non-JSON body although the caller accepted
only `application/json`. -/
def respBadBody : Response :=
  { status := 200, statusText := "OK", headers := []
    config := { headers := some [("Accept", "application/json")] }
    data := .str "<html></html>" }

/-- Witness for C5 at the concrete malformed-JSON response. -/
theorem fulfilled_invalid_json_isFormat_witness :
    ∃ c : ClassifiedError,
      fulfilledResponseInterceptor jsonParseStub respBadBody = .error (.classified c)
      ∧ c.isFormat = true ∧ c.isCancel = false ∧ c.isNetwork = false ∧ c.isValidation = false
      ∧ c.err.message = "Unexpected token < in JSON at position 0"
      ∧ c.err.response = some respBadBody :=
  fulfilled_invalid_json_isFormat jsonParseStub respBadBody
    [("Accept", "application/json")] "<html></html>" "Unexpected token < in JSON at position 0"
    rfl (by decide) rfl (by decide)

/-! ## Claim C6 -/

/-- C6, confirmed: on a successful response that requested
`application/json` exclusively, the fulfilled-response hook returns the
identical response both when the body is already structured (typeof
object) data and when the body is a string the JSON parser accepts. -/
theorem fulfilled_valid_json_passthrough (jp : String → Except String Unit) (resp : Response)
    (hs : Fields)
    (hh : resp.config.headers = some hs)
    (ha : getField hs "Accept" = some "application/json") :
    (∀ v, resp.data = .obj v → fulfilledResponseInterceptor jp resp = .ok resp)
    ∧ (∀ s, resp.data = .str s → jp s = .ok () →
        fulfilledResponseInterceptor jp resp = .ok resp) := by
  constructor
  · intro v hd
    have hfine : (decide (jsIndexOf "application/json" "application/json" < 0)
        || decide (jsIndexOf "application/json" "," > 0)
        || JsData.typeofObject (.obj v)) = true := by
      simp [JsData.typeofObject]
    simp [fulfilledResponseInterceptor, hh, ha, hd, hfine]
  · intro s hd hp
    have hfine : (decide (jsIndexOf "application/json" "application/json" < 0)
        || decide (jsIndexOf "application/json" "," > 0)
        || JsData.typeofObject (.str s)) = false := by
      simp only [JsData.typeofObject, Bool.or_false]
      decide
    simp [fulfilledResponseInterceptor, hh, ha, hd, hp, hfine]

/-- A 2xx response whose body axios already parsed to structured data. -/
def respParsedBody : Response :=
  { status := 200, statusText := "OK", headers := []
    config := { headers := some [("Accept", "application/json")] }
    data := .obj "parsed-payload" }

/-- A 2xx response whose body is a string holding valid JSON. -/
def respJsonString : Response :=
  { status := 200, statusText := "OK", headers := []
    config := { headers := some [("Accept", "application/json")] }
    data := .str "{}" }

/-- Witness for C6 at a structured body and at a valid JSON string body. -/
theorem fulfilled_valid_json_passthrough_witness :
    fulfilledResponseInterceptor jsonParseStub respParsedBody = .ok respParsedBody
    ∧ fulfilledResponseInterceptor jsonParseStub respJsonString = .ok respJsonString :=
  ⟨(fulfilled_valid_json_passthrough jsonParseStub respParsedBody
      [("Accept", "application/json")] rfl (by decide)).1 "parsed-payload" rfl,
   (fulfilled_valid_json_passthrough jsonParseStub respJsonString
      [("Accept", "application/json")] rfl (by decide)).2 "{}" rfl (by decide)⟩

/-! ## Claim C7 -/

/-- A parsing-error failure that happens to carry a 422 response: the
format rule matches before the 422 rule is ever consulted. -/
def parseFailureWith422 : AxiosError :=
  { isSyntaxError := true
    cancelled := false
    response := some { status := 422, statusText := "Unprocessable Entity",
                       headers := [], config := {}, data := .obj "validation-errors" }
    message := "Unexpected token" }

/-- C7, counterexample: a rejection carrying an attached response with
status 422 is not always classified as validation — on a parsing-error
failure the format rule matches first and `isValidation()` stays false. -/
theorem rejected_counter_422_not_validation :
    (parseFailureWith422.response.map (fun r => r.status)) = some 422
    ∧ (rejectedResponseInterceptor parseFailureWith422).isValidation = false
    ∧ (rejectedResponseInterceptor parseFailureWith422).isFormat = true := by
  decide

/-- C7, amended: for every rejection carrying an attached response with
status 422 that is not a parsing-error failure and is not recognised by
the cancellation predicate, `isValidation()` returns true and the other
three predicates false; the rethrown error still carries the response,
with `response.data` equal to the server's response body. -/
theorem rejected_422_isValidation (ex : AxiosError) (r : Response)
    (hse : ex.isSyntaxError = false) (hca : ex.cancelled = false)
    (hr : ex.response = some r) (hst : r.status = 422) :
    (rejectedResponseInterceptor ex).isValidation = true
    ∧ (rejectedResponseInterceptor ex).isFormat = false
    ∧ (rejectedResponseInterceptor ex).isCancel = false
    ∧ (rejectedResponseInterceptor ex).isNetwork = false
    ∧ (rejectedResponseInterceptor ex).err.response = some r
    ∧ ((rejectedResponseInterceptor ex).err.response.map (fun q => q.data)) = some r.data := by
  simp [rejectedResponseInterceptor, hse, hca, hr, hst]

/-- The 422 response a server answered with, its JSON error body already
parsed into structured data. -/
def resp422 : Response :=
  { status := 422, statusText := "Unprocessable Entity",
    headers := [], config := {}, data := .obj "field-errors" }

/-- A transport rejection for the 422 response. -/
def validationFailure : AxiosError :=
  { isSyntaxError := false
    cancelled := false
    response := some resp422
    message := "Request failed with status code 422" }

/-- Witness for the amended C7 at the concrete 422 rejection. -/
theorem rejected_422_isValidation_witness :
    (rejectedResponseInterceptor validationFailure).isValidation = true
    ∧ (rejectedResponseInterceptor validationFailure).isFormat = false
    ∧ (rejectedResponseInterceptor validationFailure).isCancel = false
    ∧ (rejectedResponseInterceptor validationFailure).isNetwork = false
    ∧ (rejectedResponseInterceptor validationFailure).err.response = some resp422
    ∧ ((rejectedResponseInterceptor validationFailure).err.response.map (fun q => q.data))
        = some resp422.data :=
  rejected_422_isValidation validationFailure resp422 rfl rfl rfl rfl

/-! ## Claim C8 -/

/-- C8, confirmed: at the heap level both composers only allocate — every
object existing before the call, the caller's config object and the
objects it references included, is bitwise unchanged in the resulting
store — and each returns a reference to a freshly allocated copy, never
the caller's reference. -/
theorem composers_never_mutate_caller (σ : Store) (r i : Nat) (h : i < σ.length) :
    (withAcceptJSONH σ r).1[i]? = σ[i]?
    ∧ (withCancelTokenH σ r).1[i]? = σ[i]?
    ∧ (withAcceptJSONH σ r).2 = .vref (σ.length + 1)
    ∧ (withCancelTokenH σ r).2 = .vref σ.length := by
  refine ⟨?_, ?_, rfl, rfl⟩
  · unfold withAcceptJSONH
    rw [List.getElem?_append_left (by simpa using Nat.lt_succ_of_lt h),
        List.getElem?_append_left h]
  · unfold withCancelTokenH
    rw [List.getElem?_append_left h]

/-- A concrete pre-call store: the caller's config object referencing a
headers object and a cancellation source. -/
def storeW : Store :=
  [⟨[("headers", HVal.vref 1), ("cancelSource", HVal.vref 2)]⟩,
   ⟨[("Accept", HVal.vstr "text/html")]⟩,
   ⟨[("token", HVal.vtok 7)]⟩]

/-- Witness for C8: the caller's config object (reference 0) is unchanged
by both composers, which return fresh references. -/
theorem composers_never_mutate_caller_witness :
    (withAcceptJSONH storeW 0).1[0]? = storeW[0]?
    ∧ (withCancelTokenH storeW 0).1[0]? = storeW[0]?
    ∧ (withAcceptJSONH storeW 0).2 = .vref 4
    ∧ (withCancelTokenH storeW 0).2 = .vref 3 :=
  composers_never_mutate_caller storeW 0 0 (by decide)

/-! ## Claim C9 -/

/-- C9: the current revision's `setCaxiosDefaults` installs the 3000 ms
timeout, the `Content-Type: application/json` default for post/put/patch
and the interceptor pair on the isolated caxios instance, leaving the
global instance untouched — but the older revision's `setGlobalDefaults`
(src/index.js) installs the same defaults directly on the library's
global shared instance, modifying it. -/
theorem initialization_instance_targets :
    (setCaxiosDefaults initialHttpState).globalAxios = initialHttpState.globalAxios
    ∧ (setCaxiosDefaults initialHttpState).caxios.timeout = 3000
    ∧ methodContentType (setCaxiosDefaults initialHttpState).caxios "post" = some "application/json"
    ∧ methodContentType (setCaxiosDefaults initialHttpState).caxios "put" = some "application/json"
    ∧ methodContentType (setCaxiosDefaults initialHttpState).caxios "patch" = some "application/json"
    ∧ (setCaxiosDefaults initialHttpState).caxios.responseInterceptors = [.normalizePair]
    ∧ (setGlobalDefaults initialHttpState).globalAxios ≠ initialHttpState.globalAxios
    ∧ (setGlobalDefaults initialHttpState).globalAxios.timeout = 3000
    ∧ (setGlobalDefaults initialHttpState).globalAxios.responseInterceptors = [.normalizePair] := by
  decide

/-! ## Claim C10 -/

/-- C10, confirmed: the exported `withCancelToken` has no default
parameter, so an `undefined` argument raises a TypeError when
`baseConfig.cancelToken` is read; the exported `withAcceptJSON`
substitutes the empty config for a missing argument; and every verb
facade shields `withCancelToken` by defaulting its config parameter to a
fresh empty object, so the facade's composition never raises. -/
theorem withCancelToken_requires_argument :
    withCancelTokenJS none = .error .typeError
    ∧ withAcceptJSONJS none = .ok (withAcceptJSON {})
    ∧ ∀ c : Option Config, facadeRequestConfig c = .ok (withCancelToken (c.getD {})) :=
  ⟨rfl, rfl, fun _ => rfl⟩

end Caxios
